import Mathlib

/-!
Verification of `google/dev/create_gce_image.py`.

The script drives the `gcloud` CLI to build a GCE image: it checks that the
target image does not already exist, creates a prototype instance, polls the
instance until a sentinel metadata key appears, and then either registers an
image from the boot disk or bundles the disk into a tarball.

Shallow embedding: every external invocation (`run` / `run_or_die` from
`install.install_utils`) is a `Cmd` value; the outside world is an `Oracle`
mapping the index of each call (in issue order) to the `RunResult` it returns.
Workflow state `St` carries the mutable `options` namespace plus the list of
commands issued so far, whose length is the index of the next call.
Python exceptions and `sys.exit` become the error side of `Res`.
-/

/-- Result of one external command: exit status plus captured output,
as returned by `install.install_utils.run`. -/
structure RunResult where
  code : Int
  stdout : String
  stderr : String
deriving DecidableEq

/-- The environment: the response to the k-th external call of the run. -/
def Oracle : Type := Nat → RunResult

/- ### Python string primitives (Python 2 semantics, on small strings) -/

/-- `listMatch sub s` is true when `sub` occurs at the very start of `s`. -/
def listMatch : List Char → List Char → Bool
  | [], _ => true
  | _ :: _, [] => false
  | c :: cs, d :: ds => c = d && listMatch cs ds

/-- Helper for `pyFind`: first index `≥ i` at which `sub` occurs, else `-1`. -/
def pyFindAux (sub : List Char) : List Char → Nat → Int
  | [], i => if listMatch sub [] then (i : Int) else -1
  | s@(_ :: rest), i => if listMatch sub s then (i : Int) else pyFindAux sub rest (i + 1)

/-- Python `s.find(sub)`: lowest index of an occurrence of `sub`, or `-1`. -/
def pyFind (s sub : String) : Int := pyFindAux sub.data s.data 0

/-- Python `s.replace(c, rep)` for a single-character pattern
(every replace in the source has a one-character pattern). -/
def pyReplaceChar (c : Char) (rep : List Char) : List Char → List Char
  | [] => []
  | d :: rest =>
    if d = c then rep ++ pyReplaceChar c rep rest else d :: pyReplaceChar c rep rest

/-- Python `s.replace(c, rep)` with a one-character pattern `c`. -/
def pyReplace (s : String) (c : Char) (rep : String) : String :=
  ⟨pyReplaceChar c rep.data s.data⟩

/-- Python `s.startswith(pre)`. -/
def pyStartswith (s pre : String) : Bool := listMatch pre.data s.data

/-- Python `len(s)`. -/
def pyLen (s : String) : Nat := s.data.length

/-- Helper for `pyBasename`: keep the (reversed) segment after the last `/`. -/
def pyBasenameAux : List Char → List Char → List Char
  | acc, [] => acc.reverse
  | _acc, '/' :: rest => pyBasenameAux [] rest
  | acc, c :: rest => pyBasenameAux (c :: acc) rest

/-- Python `os.path.basename` (POSIX): everything after the last `/`. -/
def pyBasename (p : String) : String := ⟨pyBasenameAux [] p.data⟩

/-- Python whitespace, as stripped by `str.strip()`. -/
def isPySpace (c : Char) : Bool :=
  c = ' ' || c = '\t' || c = '\n' || c = '\r' || c = '\x0b' || c = '\x0c'

/-- Python `s.strip()`. -/
def pyStrip (s : String) : String :=
  ⟨((s.data.dropWhile isPySpace).reverse.dropWhile isPySpace).reverse⟩

/-- Lazy scan used by the family regex: the characters before the first `' '`,
failing at a newline or end of input (`.` in the pattern does not match `\n`). -/
def upToSpace : List Char → Option (List Char)
  | [] => none
  | c :: rest =>
    if c = ' ' then some []
    else if c = '\n' then none
    else (upToSpace rest).map (fun l => c :: l)

/-- Helper for `reSearchFamilySpace`: leftmost match of the pattern
`family` `.*?` `' '` scanning positions left to right; at each position the
whole pattern must match, with the lazy `.*?` taking the shortest extension. -/
def reSearchFamilyAux (family : List Char) : List Char → Option (List Char)
  | [] => none
  | s@(_ :: rest) =>
    if listMatch family s then
      match upToSpace (s.drop family.length) with
      | some mid => some (family ++ mid ++ [' '])
      | none => reSearchFamilyAux family rest
    else reSearchFamilyAux family rest

/-- Python `re.search('{family}.*? '.format(family=family), stdout)`, returning
`group(0)` of the match.  The family string is treated literally (the configured
defaults contain no regex metacharacters). -/
def reSearchFamilySpace (family stdout : String) : Option String :=
  (reSearchFamilyAux family.data stdout.data).map (fun l => ⟨l⟩)

/- ### The mutable options namespace (argparse `Namespace`)

Fields mirror `init_argument_parser`.  `None` defaults are modeled as `""`
(the source only ever tests them for truthiness). -/

structure Options where
  release_path : String
  write_tarball_path : String
  image : String
  image_project : String
  source_image : String
  source_image_family : String
  source_image_project : String
  zone : String
  tmp_instance_name : String
  trace : Bool
  spinnaker : Bool
  dependencies : Bool
  update_os : Bool
  extra_install_flags : String
deriving DecidableEq

/- ### External commands

One constructor per `run`/`run_or_die` call site, carrying exactly the values
the source interpolates into the command line at that site. -/

inductive Cmd where
  /-- `gcloud compute images list` (in `get_source_image`). -/
  | imagesList
  /-- `gcloud compute images describe <url>` (in `check_for_image`). -/
  | describeImage (url : String)
  /-- `gcloud compute instances create ...` (in `create_prototype_instance`).
  The `--metadata`/`--metadata-from-file` payloads are assembled from local
  files and carry no workflow-visible structure; they are elided. -/
  | createInstance (name project image imageProject zone : String)
  /-- `gcloud compute instances delete ... --keep-disks boot`
  (in `extract_image_from_instance`). -/
  | deleteInstanceKeepBoot (name project zone : String)
  /-- `gcloud compute images create ...` (in `extract_image_from_instance`). -/
  | createImageCmd (name project sourceDisk zone : String)
  /-- `gcloud compute disks delete ... --quiet` (in `make_image_resource`). -/
  | deleteDisk (name project zone : String)
  /-- `gcloud compute disks create ... --size=10` (in `make_image_tarball`). -/
  | createDisk (name project zone : String)
  /-- `gcloud compute instances attach-disk ...` (in `make_image_tarball`). -/
  | attachDisk (inst disk project zone : String)
  /-- `gcloud compute instances detach-disk -q ...`
  (cleanup in `make_image_tarball`). -/
  | detachDisk (inst disk project zone : String)
  /-- `gcloud compute disks delete -q ...` (cleanup in `make_image_tarball`). -/
  | deleteDiskQ (name project zone : String)
  /-- `gcloud compute ssh --command="..."` (in `__do_make_image_tarball`). -/
  | sshBundle (tarName outputPath project zone inst : String)
  /-- in-loop `gcloud compute --project <p> instances get-serial-port-output`
  (in `monitor_serial_port_until_metadata_key`). -/
  | getSerialPort (project zone name : String)
  /-- the final serial-port drain after the wait loop.  The source's format
  string has no placeholder for the project: the command line carries the
  literal word `project`, so this constructor has no project argument. -/
  | serialDrain (zone name : String)
  /-- `gcloud compute instances describe ...` (the sentinel poll). -/
  | describeInstance (name project zone : String)
deriving DecidableEq

/-- The remote command sequence built by `__do_make_image_tarball`
(joined with `'; '` before being passed to `gcloud compute ssh`). -/
def remoteBundleScript (tarName outputPath : String) : String :=
  "sudo mkdir /mnt/tmp" ++ "; " ++
  "sudo /usr/share/google/safe_format_and_mount -m \"mkfs.ext4 -F\" /dev/sdb /mnt/tmp" ++ "; " ++
  "EXCLUDES=`python -c \"import glob; print ','.join(glob.glob('/home/*'))\"`" ++ "; " ++
  "sudo gcimagebundle -d /dev/sda -o /mnt/tmp --log_file=/tmp/export.log --output_file_name=" ++
    tarName ++ " --excludes=/tmp,\\$EXCLUDES" ++ "; " ++
  "gsutil -q cp /mnt/tmp/" ++ tarName ++ " " ++ outputPath

/-- The command line each `Cmd` stands for, reconstructed from the format
strings at the corresponding call sites. -/
def renderCmd : Cmd → String
  | .imagesList => "gcloud compute images list"
  | .describeImage url => "gcloud compute images describe " ++ url
  | .createInstance name project image imageProject zone =>
      "gcloud compute instances create " ++ name ++ " --project " ++ project ++
      " --image " ++ image ++ " --image-project " ++ imageProject ++
      " --zone " ++ zone ++ " --machine-type n1-standard-1" ++
      " --scopes compute-rw,storage-rw"
  | .deleteInstanceKeepBoot name project zone =>
      "gcloud compute instances delete " ++ name ++ " --project " ++ project ++
      " --zone " ++ zone ++ " --quiet --keep-disks boot"
  | .createImageCmd name project sourceDisk zone =>
      "gcloud compute images create " ++ name ++ " --project " ++ project ++
      " --source-disk " ++ sourceDisk ++ " --source-disk-zone " ++ zone
  | .deleteDisk name project zone =>
      "gcloud compute disks delete " ++ name ++ " --project " ++ project ++
      " --zone " ++ zone ++ " --quiet"
  | .createDisk name project zone =>
      "gcloud compute disks create  " ++ name ++ " --project " ++ project ++
      " --zone " ++ zone ++ " --size=10"
  | .attachDisk inst disk project zone =>
      "gcloud compute instances attach-disk " ++ inst ++ " --disk=" ++ disk ++
      " --device-name=export-disk --project=" ++ project ++ " --zone=" ++ zone
  | .detachDisk inst disk project zone =>
      "gcloud compute instances detach-disk -q " ++ inst ++ " --disk=" ++ disk ++
      " --project=" ++ project ++ " --zone=" ++ zone
  | .deleteDiskQ name project zone =>
      "gcloud compute disks delete -q " ++ name ++ " --project=" ++ project ++
      " --zone=" ++ zone
  | .sshBundle tarName outputPath project zone inst =>
      "gcloud compute ssh --command=\"" ++
      (pyReplace (remoteBundleScript tarName outputPath) '"' "\\\"") ++
      "\" --project " ++ project ++ " --zone " ++ zone ++ " " ++ inst
  | .getSerialPort project zone name =>
      "gcloud compute --project " ++ project ++
      " instances get-serial-port-output --zone " ++ zone ++
      " --format text " ++ name
  | .serialDrain zone name =>
      "gcloud compute --project project instances get-serial-port-output" ++
      " --format text --zone " ++ zone ++ " " ++ name
  | .describeInstance name project zone =>
      "gcloud compute instances describe " ++ name ++ " --project " ++ project ++
      " --zone " ++ zone

/- ### Errors, state and results -/

/-- How a run can abort. -/
inductive Err where
  /-- Python `raise ValueError(msg)` in `create_image`. -/
  | valueError (msg : String)
  /-- `sys.stderr.write(msg)` followed by `sys.exit(-1)`. -/
  | sysExit (msg : String)
  /-- `run_or_die` terminating the process on a non-zero exit status. -/
  | died (c : Cmd)
  /-- `get_target_project` on an empty `image_project` calls
  `get_default_project(options)`, but `get_default_project` takes no
  parameters, so Python raises `TypeError` before any external call. -/
  | typeError
deriving DecidableEq

/-- Workflow state: the mutable options namespace plus the commands issued so
far (in order); `trace.length` is the index of the next call in the `Oracle`. -/
structure St where
  opts : Options
  trace : List Cmd
deriving DecidableEq

/-- Outcome of a stateful computation: normal return, abort, or fuel
exhaustion inside the watch loop (the source loops forever). -/
inductive Res (α : Type) where
  | ok (a : α) (s : St)
  | err (e : Err) (s : St)
  | out (s : St)
deriving DecidableEq

/-- A stateful computation over `St`. -/
def M (α : Type) : Type := St → Res α

/-- The commands issued by the time the computation stopped, on any outcome. -/
def Res.traceOf {α : Type} : Res α → List Cmd
  | .ok _ s => s.trace
  | .err _ s => s.trace
  | .out s => s.trace

/-- `install.install_utils.run`: issue the command, return the triple
`(retcode, stdout, stderr)`; never aborts. -/
def run (o : Oracle) (c : Cmd) : M RunResult := fun s =>
  .ok (o s.trace.length) { s with trace := s.trace ++ [c] }

/-- Modelled from the spec: `run_or_die` comes from `install.install_utils`,
whose source is not part of this repository.  Per the spec (§6) every external
call returns a status code plus captured stdout/stderr and a non-zero status is
fatal unless explicitly tolerated, so `run_or_die` returns `(stdout, stderr)`
when the status is zero and aborts the run otherwise. -/
def run_or_die (o : Oracle) (c : Cmd) : M (String × String) := fun s =>
  let r := o s.trace.length
  let s1 : St := { s with trace := s.trace ++ [c] }
  if r.code = 0 then .ok (r.stdout, r.stderr) s1 else .err (.died c) s1

/- ### Target / source resolution -/

/-- The target image name: the explicit `--image`, else the basename of the
release path with underscores normalized to hyphens (`get_target_image`). -/
def target_image_name (opts : Options) : String :=
  if opts.image = "" then pyReplace (pyBasename opts.release_path) '_' "-"
  else opts.image

/-- `get_target_image`: computes the target image name and caches it on
`options.image`. -/
def get_target_image : St → String × St := fun s =>
  let img := target_image_name s.opts
  (img, { s with opts := { s.opts with image := img } })

/-- `get_target_project`: returns `options.image_project`.  When it is empty
the source calls `get_default_project(options)`, which raises `TypeError`
(`get_default_project` takes no parameters), before any external call. -/
def get_target_project : M String := fun s =>
  if s.opts.image_project = "" then .err .typeError s
  else .ok s.opts.image_project s

/-- The message written to stderr by `get_source_image` when no image matches
the family pattern. -/
def noImagesMessage (family listing : String) : String :=
  "No images found for family=\"" ++ family ++ "\".\n" ++ listing ++ "\n"

/-- `get_source_image`: an explicit `--source_image` is returned verbatim;
otherwise the full image listing is fetched and the first (leftmost) match of
`{family}.*? ` in it is stripped, cached on `options.source_image`, and
returned; with no match the run aborts via `sys.exit(-1)`. -/
def get_source_image (o : Oracle) : M String := fun s =>
  if s.opts.source_image ≠ "" then .ok s.opts.source_image s
  else
    match run_or_die o Cmd.imagesList s with
    | .err e s => .err e s
    | .out s => .out s
    | .ok (stdout, _stderr) s =>
      match reSearchFamilySpace s.opts.source_image_family stdout with
      | none => .err (.sysExit (noImagesMessage s.opts.source_image_family stdout)) s
      | some g0 =>
        let img := pyStrip g0
        .ok img { s with opts := { s.opts with source_image := img } }

/- ### Precondition check -/

/-- The URL `check_for_image` asks `gcloud compute images describe` about. -/
def describeImageUrl (project image : String) : String :=
  "https://www.googleapis.com/compute/v1/projects/" ++ project ++
  "/global/images/" ++ image

/-- The conflict message written to stderr when the target image pre-exists. -/
def conflictMessage (name project description : String) : String :=
  "ERROR: An image \"" ++ name ++ "\" already exists in \"" ++ project ++
  "\".\n\n    " ++ pyReplace description '\n' "\n    " ++
  "\n\nDelete it or specify a different --image\n\n"

/-- `check_for_image`: describe the target image; a zero exit status means it
already exists and the run aborts via `sys.exit(-1)`; any non-zero status
falls through and the workflow proceeds. -/
def check_for_image (o : Oracle) : M Unit := fun s =>
  let (image, s) := get_target_image s
  match get_target_project s with
  | .err e s => .err e s
  | .out s => .out s
  | .ok project s =>
    let url := describeImageUrl project image
    let r := o s.trace.length
    let s : St := { s with trace := s.trace ++ [Cmd.describeImage url] }
    if r.code = 0 then .err (.sysExit (conflictMessage image project r.stdout)) s
    else .ok () s

/- ### Provisioner -/

/-- `create_prototype_instance`: create the prototype instance via
`run_or_die`.  The startup command and the metadata payloads are assembled
from local files (tempfile copies of the installer scripts with internal path
text rewritten); that local packaging issues no external command and is
elided.  In the gcloud argument list, `get_target_project(options)` is
evaluated before `get_source_image(options)`. -/
def create_prototype_instance (o : Oracle) : M Unit := fun s =>
  match get_target_project s with
  | .err e s => .err e s
  | .out s => .out s
  | .ok project s =>
    match get_source_image o s with
    | .err e s => .err e s
    | .out s => .out s
    | .ok image s =>
      match run_or_die o (Cmd.createInstance s.opts.tmp_instance_name project
          image s.opts.source_image_project s.opts.zone) s with
      | .err e s => .err e s
      | .out s => .out s
      | .ok _ s => .ok () s

/- ### Completion watcher -/

/-- The two ways the wait loop can stop: the sentinel pattern was seen in a
describe poll (`DONE`), or a serial-port fetch failed unrecoverably in trace
mode (`FAILED`; the source reaches this by `break`ing out of the loop from the
fetch-error branch). -/
inductive MonitorExit where
  | sentinelFound
  | traceFailure
deriving DecidableEq

/-- The crash signature of the polling tool itself, tolerated by the watcher. -/
def crashSignature : String := "If you would like to report this issue"

/-- Outcome of the wait loop: an exit together with the final read offset and
the calls the loop issued, or fuel exhaustion (the source would keep polling). -/
inductive LoopOut where
  | exited (e : MonitorExit) (offset : Nat) (calls : List Cmd)
  | fuelOut (calls : List Cmd)
deriving DecidableEq

/-- Record one issued call in front of a loop outcome. -/
def LoopOut.consCall (c : Cmd) : LoopOut → LoopOut
  | .exited e off calls => .exited e off (c :: calls)
  | .fuelOut calls => .fuelOut (c :: calls)

/-- The `while True` loop of `monitor_serial_port_until_metadata_key`.
`k` is the index of the next external call, `offset` the serial-port read
offset.  Per cycle: in trace mode fetch the serial output (emitting the bytes
past `offset` and advancing it); if that fetch failed and output has been
observed, either ignore the failure (`continue`) when the stderr contains the
crash signature at a positive index, or `break` (FAILED); otherwise describe
the instance and `break` (DONE) when the sentinel pattern occurs; else sleep
and repeat. -/
def monitorLoopGo (o : Oracle) (tr : Bool) (project zone name pattern : String) :
    Nat → Nat → Nat → LoopOut
  | 0, _, _ => .fuelOut []
  | fuel + 1, offset, k =>
    if tr then
      let r := o k
      let offset1 := if pyLen r.stdout > offset then pyLen r.stdout else offset
      if r.code ≠ 0 ∧ offset1 ≠ 0 then
        if 0 < pyFind r.stderr crashSignature then
          -- 'continue': retry the fetch without polling the describe channel
          LoopOut.consCall (Cmd.getSerialPort project zone name)
            (monitorLoopGo o tr project zone name pattern fuel offset1 (k + 1))
        else
          .exited .traceFailure offset1 [Cmd.getSerialPort project zone name]
      else
        let r2 := o (k + 1)
        if 0 ≤ pyFind r2.stdout pattern then
          .exited .sentinelFound offset1
            [Cmd.getSerialPort project zone name, Cmd.describeInstance name project zone]
        else
          LoopOut.consCall (Cmd.getSerialPort project zone name)
            (LoopOut.consCall (Cmd.describeInstance name project zone)
              (monitorLoopGo o tr project zone name pattern fuel offset1 (k + 2)))
    else
      let r2 := o k
      if 0 ≤ pyFind r2.stdout pattern then
        .exited .sentinelFound offset [Cmd.describeInstance name project zone]
      else
        LoopOut.consCall (Cmd.describeInstance name project zone)
          (monitorLoopGo o tr project zone name pattern fuel offset (k + 1))

/-- `monitor_serial_port_until_metadata_key`: run the wait loop on the pattern
`' - key: <metadata_key>'`; afterwards, in trace mode, fetch the serial output
one final time through `run_or_die` and print the bytes past the final offset.
The final fetch command is `Cmd.serialDrain`: its format string carries the
literal word `project` instead of the watched project. -/
def monitor_serial_port_until_metadata_key (o : Oracle) (fuel : Nat)
    (project zone instance_name metadata_key : String) : M Unit := fun s =>
  let pattern := " - key: " ++ metadata_key
  match monitorLoopGo o s.opts.trace project zone instance_name pattern fuel 0
      s.trace.length with
  | .fuelOut calls => .out { s with trace := s.trace ++ calls }
  | .exited _e _offset calls =>
    let s1 : St := { s with trace := s.trace ++ calls }
    if s.opts.trace then
      match run_or_die o (Cmd.serialDrain zone instance_name) s1 with
      | .ok _ s2 => .ok () s2
      | .err e s2 => .err e s2
      | .out s2 => .out s2
    else .ok () s1

/- ### Artifact extraction: image branch -/

/-- `extract_image_from_instance`: delete the prototype instance keeping its
boot disk, then create the target image from that disk.  Both steps go through
`run_or_die`, so the image-create command is only issued after the delete
completed with status zero. -/
def extract_image_from_instance (o : Oracle) : M Unit := fun s =>
  match get_target_project s with
  | .err e s => .err e s
  | .out s => .out s
  | .ok project s =>
    match run_or_die o (Cmd.deleteInstanceKeepBoot s.opts.tmp_instance_name
        project s.opts.zone) s with
    | .err e s => .err e s
    | .out s => .out s
    | .ok _ s =>
      let (image, s) := get_target_image s
      match run_or_die o (Cmd.createImageCmd image project
          s.opts.tmp_instance_name s.opts.zone) s with
      | .err e s => .err e s
      | .out s => .out s
      | .ok _ s => .ok () s

/-- `make_image_resource`: extract the image, then delete the orphaned boot
disk (again through `run_or_die`, so only reached after the image create
succeeded). -/
def make_image_resource (o : Oracle) : M Unit := fun s =>
  match extract_image_from_instance o s with
  | .err e s => .err e s
  | .out s => .out s
  | .ok _ s =>
    match get_target_project s with
    | .err e s => .err e s
    | .out s => .out s
    | .ok project s =>
      match run_or_die o (Cmd.deleteDisk s.opts.tmp_instance_name project
          s.opts.zone) s with
      | .err e s => .err e s
      | .out s => .out s
      | .ok _ s => .ok () s

/- ### Artifact extraction: tarball branch -/

/-- `__do_make_image_tarball`: one atomic remote invocation over ssh that
formats the scratch disk, bundles the boot disk and copies the tarball to the
destination path. -/
def do_make_image_tarball (o : Oracle) (project disk_name : String) : M Unit := fun s =>
  let tar_name := pyBasename s.opts.write_tarball_path
  match run_or_die o (Cmd.sshBundle tar_name s.opts.write_tarball_path project
      s.opts.zone s.opts.tmp_instance_name) s with
  | .err e s => .err e s
  | .out s => .out s
  | .ok _ s =>
    -- the unused disk_name parameter mirrors the source signature
    let _ := disk_name
    .ok () s

/-- `make_image_tarball`: create and attach a scratch disk, then run the
remote bundling command inside `try/finally`: the detach and the delete of the
scratch disk run on both the success and the failure path, through plain `run`
(their own failures are ignored), and the original outcome is re-raised. -/
def make_image_tarball (o : Oracle) : M Unit := fun s =>
  match get_target_project s with
  | .err e s => .err e s
  | .out s => .out s
  | .ok project s =>
    let disk_name := s.opts.image ++ "-export"
    match run_or_die o (Cmd.createDisk disk_name project s.opts.zone) s with
    | .err e s => .err e s
    | .out s => .out s
    | .ok _ s =>
      match run_or_die o (Cmd.attachDisk s.opts.tmp_instance_name disk_name
          project s.opts.zone) s with
      | .err e s => .err e s
      | .out s => .out s
      | .ok _ s =>
        -- the finally block: detach then delete, results ignored
        let cleanup : St → St := fun s =>
          match run o (Cmd.detachDisk s.opts.tmp_instance_name disk_name
              project s.opts.zone) s with
          | .ok _ s | .err _ s | .out s =>
            match run o (Cmd.deleteDiskQ disk_name project s.opts.zone) s with
            | .ok _ s | .err _ s | .out s => s
        match do_make_image_tarball o project disk_name s with
        | .ok a s => .ok a (cleanup s)
        | .err e s => .err e (cleanup s)
        | .out s => .out (cleanup s)

/- ### Top-level workflow -/

/-- The `ValueError` message for a missing release path. -/
def releasePathError : String :=
  "--release_path cannot be empty. Either specify a --release or a --release_path."

/-- The `ValueError` message for a tarball path outside the `gs://` scheme. -/
def tarballPathError : String := "--write_tarball_path must be a gs:// path."

/-- `create_image`: validate the request, fail early if the target image
exists, provision the prototype instance, wait for the sentinel metadata key
`spinnaker-sentinal`, then run the tarball branch when `write_tarball_path`
is set and the image branch otherwise. -/
def create_image (o : Oracle) (fuel : Nat) : M Unit := fun s =>
  if s.opts.release_path = "" then .err (.valueError releasePathError) s
  else if s.opts.write_tarball_path ≠ "" ∧
      pyStartswith s.opts.write_tarball_path "gs://" = false then
    .err (.valueError tarballPathError) s
  else
    match check_for_image o s with
    | .err e s => .err e s
    | .out s => .out s
    | .ok _ s =>
      match create_prototype_instance o s with
      | .err e s => .err e s
      | .out s => .out s
      | .ok _ s =>
        match get_target_project s with
        | .err e s => .err e s
        | .out s => .out s
        | .ok project s =>
          match monitor_serial_port_until_metadata_key o fuel project
              s.opts.zone s.opts.tmp_instance_name "spinnaker-sentinal" s with
          | .err e s => .err e s
          | .out s => .out s
          | .ok _ s =>
            if s.opts.write_tarball_path ≠ "" then make_image_tarball o s
            else make_image_resource o s

/- ### Command classifiers used by the trace properties -/

/-- Is this the instance-delete call (`--keep-disks boot`)? -/
def isDeleteInstance : Cmd → Bool
  | .deleteInstanceKeepBoot _ _ _ => true
  | _ => false

/-- Is this the image-create call? -/
def isCreateImage : Cmd → Bool
  | .createImageCmd _ _ _ _ => true
  | _ => false

/-- Is this the boot-disk delete of the image branch? -/
def isDeleteDiskCmd : Cmd → Bool
  | .deleteDisk _ _ _ => true
  | _ => false

/-- Is this the instance-create call? -/
def isCreateInstance : Cmd → Bool
  | .createInstance _ _ _ _ _ => true
  | _ => false

/-- Is this the scratch-disk create call? -/
def isCreateDisk : Cmd → Bool
  | .createDisk _ _ _ => true
  | _ => false

/-- Is this the scratch-disk detach call? -/
def isDetachDisk : Cmd → Bool
  | .detachDisk _ _ _ _ => true
  | _ => false

/-- Is this the scratch-disk delete call? -/
def isDeleteDiskQ : Cmd → Bool
  | .deleteDiskQ _ _ _ => true
  | _ => false

/- ### Spec-side source resolution (for comparison with the code) -/

/-- Modelled from the spec: an image descriptor as the Target Resolver section
describes it — a name plus a recency stamp ("select the most recent one whose
name matches the configured family prefix").  The raw `gcloud compute images
list` text the code parses carries no recency information; this structured
form exists only to state the spec-side selector. -/
structure SpecImage where
  name : String
  created : Nat
deriving DecidableEq

/-- Modelled from the spec: "select the most recent one whose name matches the
configured family prefix" — among the images whose name starts with the family
string, one of maximal creation stamp. -/
def spec_most_recent_family_image (family : String) (images : List SpecImage) :
    Option SpecImage :=
  (images.filter (fun i => pyStartswith i.name family)).foldl
    (fun acc i =>
      match acc with
      | none => some i
      | some j => if j.created < i.created then some i else some j) none

/-- A plain-text rendering of an image listing (one `NAME PROJECT STATUS` row
per image, in listing order), standing for the `gcloud compute images list`
stdout the code scans. -/
def renderImagesListing : List SpecImage → String
  | [] => ""
  | i :: rest => i.name ++ " ubuntu-os-cloud READY\n" ++ renderImagesListing rest

/- ### Concrete sample inputs used by witnesses and counterexamples -/

/-- A fully-populated options namespace (image output mode). -/
def sOpts : Options :=
  { release_path := "gs://bucket/spinnaker-release"
  , write_tarball_path := ""
  , image := "my-image"
  , image_project := "my-project"
  , source_image := "src-image"
  , source_image_family := "ubuntu-1404"
  , source_image_project := "ubuntu-os-cloud"
  , zone := "us-central1-c"
  , tmp_instance_name := "tmp-inst"
  , trace := false
  , spinnaker := true
  , dependencies := true
  , update_os := false
  , extra_install_flags := "" }

/-- An environment whose every call succeeds with empty output. -/
def okOracle : Oracle := fun _ => ⟨0, "", ""⟩

/-- Watcher run: the sentinel appears in the second describe poll. -/
def w1Oracle : Oracle := fun k => ⟨0, if k = 0 then "" else " - key: mkey", ""⟩

/-- Tarball-mode workflow run in which every external call succeeds and the
sentinel appears in the first describe poll. -/
def c2Oracle : Oracle := fun k =>
  if k = 0 then ⟨1, "", ""⟩
  else if k = 2 then ⟨0, " - key: spinnaker-sentinal", ""⟩
  else ⟨0, "", ""⟩

/-- `sOpts` switched to tarball output mode. -/
def c2Opts : Options := { sOpts with write_tarball_path := "gs://bucket/out.tar.gz" }

/-- Serial-port responses: one successful fetch with output, one describe poll
without the sentinel, then a fetch failure whose stderr is exactly the crash
signature (so the signature occurs at index 0). -/
def c6Oracle : Oracle := fun k =>
  if k = 0 then ⟨0, "x", ""⟩
  else if k = 1 then ⟨0, "", ""⟩
  else ⟨1, "x", "If you would like to report this issue"⟩

/-- Two family images in the listing, the older one listed first. -/
def c7Images : List SpecImage :=
  [⟨"ubuntu-1404-v1", 1⟩, ⟨"ubuntu-1404-v2", 2⟩]

/-- Environment returning the rendered two-image listing. -/
def c7Oracle : Oracle := fun _ => ⟨0, renderImagesListing c7Images, ""⟩

/-- `sOpts` with no explicit source image, forcing the family lookup. -/
def c7Opts : Options := { sOpts with source_image := "" }

/-- Trace-mode watcher run: one successful serial fetch, then a describe poll
containing the sentinel, then a successful final drain. -/
def c9Oracle : Oracle := fun k =>
  if k = 0 then ⟨0, "log", ""⟩
  else if k = 1 then ⟨0, "xx - key: mkey", ""⟩
  else ⟨0, "", ""⟩

/-- `sOpts` with tracing enabled. -/
def c9Opts : Options := { sOpts with trace := true }

/-- Workflow run whose target-image describe fails with a transient-looking
status (7) and message, and everything else succeeds; the sentinel appears in
the first describe poll. -/
def c10Oracle : Oracle := fun k =>
  if k = 0 then ⟨7, "", "ERROR: backend error, try again later"⟩
  else if k = 2 then ⟨0, " - key: spinnaker-sentinal", ""⟩
  else ⟨0, "", ""⟩

/- ### Result projections and further sample inputs -/

def Res.stOf {α : Type} : Res α → St
  | .ok _ s => s
  | .err _ s => s
  | .out s => s

def LoopOut.calls : LoopOut → List Cmd
  | .exited _ _ calls => calls
  | .fuelOut calls => calls

def c4Oracle : Oracle := fun k =>
  if k = 2 then ⟨1, "", "bundling failed"⟩ else ⟨0, "", ""⟩

def c5Oracle : Oracle := fun _ => ⟨0, "name: my-image\nstatus: READY", ""⟩

def c6bOracle : Oracle := fun _ =>
  ⟨1, "x", "gcloud crashed: If you would like to report this issue at url"⟩

def c8Opts : Options := { sOpts with write_tarball_path := "/tmp/out.tar.gz" }

/- ### Helper lemmas -/

theorem Res.traceOf_eq {α : Type} (r : Res α) : r.traceOf = r.stOf.trace := by
  cases r <;> rfl

theorem LoopOut.calls_consCall (c : Cmd) (L : LoopOut) :
    (LoopOut.consCall c L).calls = c :: L.calls := by
  cases L <;> rfl

theorem countDel_zero (l : List Cmd) (h : ∀ c ∈ l, isDeleteInstance c = false) :
    l.countP isDeleteInstance = 0 := by
  apply List.countP_eq_zero.mpr
  intro a ha
  simp [h a ha]

theorem monitorLoopGo_calls_shape (o : Oracle) (tr : Bool)
    (project zone name pattern : String) (fuel offset k : Nat) :
    ∀ c ∈ (monitorLoopGo o tr project zone name pattern fuel offset k).calls,
      c = Cmd.getSerialPort project zone name ∨ c = Cmd.describeInstance name project zone := by
  induction fuel generalizing offset k with
  | zero => simp [monitorLoopGo, LoopOut.calls]
  | succ fuel ih =>
    cases tr with
    | false =>
      rw [monitorLoopGo]
      simp only [Bool.false_eq_true, if_false]
      by_cases hfound : 0 ≤ pyFind (o k).stdout pattern
      · rw [if_pos hfound]; simp [LoopOut.calls]
      · rw [if_neg hfound]
        simp only [LoopOut.calls_consCall, List.mem_cons]
        rintro c (rfl | hc)
        · exact Or.inr rfl
        · exact ih _ _ c hc
    | true =>
      rw [monitorLoopGo]
      simp only [if_true]
      by_cases hfail : (o k).code ≠ 0 ∧
          (if pyLen (o k).stdout > offset then pyLen (o k).stdout else offset) ≠ 0
      · rw [if_pos hfail]
        by_cases hsig : 0 < pyFind (o k).stderr crashSignature
        · rw [if_pos hsig]
          simp only [LoopOut.calls_consCall, List.mem_cons]
          rintro c (rfl | hc)
          · exact Or.inl rfl
          · exact ih _ _ c hc
        · rw [if_neg hsig]; simp [LoopOut.calls]
      · rw [if_neg hfail]
        by_cases hfound : 0 ≤ pyFind (o (k + 1)).stdout pattern
        · rw [if_pos hfound]; simp [LoopOut.calls]
        · rw [if_neg hfound]
          simp only [LoopOut.calls_consCall, List.mem_cons]
          rintro c (rfl | rfl | hc)
          · exact Or.inl rfl
          · exact Or.inr rfl
          · exact ih _ _ c hc

theorem monitor_appends (o : Oracle) (fuel : Nat)
    (project zone iname mkey : String) (s : St) :
    ∃ ext,
      ((monitor_serial_port_until_metadata_key o fuel project zone iname mkey s).stOf).trace
        = s.trace ++ ext
      ∧ (∀ c ∈ ext, isDeleteInstance c = false)
      ∧ ((monitor_serial_port_until_metadata_key o fuel project zone iname
            mkey s).stOf).opts.write_tarball_path = s.opts.write_tarball_path := by
  have hshape := monitorLoopGo_calls_shape o s.opts.trace project zone iname
    (" - key: " ++ mkey) fuel 0 s.trace.length
  unfold monitor_serial_port_until_metadata_key
  dsimp only
  cases hx : monitorLoopGo o s.opts.trace project zone iname (" - key: " ++ mkey)
      fuel 0 s.trace.length with
  | fuelOut calls =>
    rw [hx] at hshape
    refine ⟨calls, by simp [Res.stOf], ?_, by simp [Res.stOf]⟩
    intro c hc
    rcases hshape c hc with rfl | rfl <;> rfl
  | exited e off calls =>
    rw [hx] at hshape
    dsimp only
    by_cases htr : s.opts.trace = true
    · rw [if_pos htr]
      unfold run_or_die
      dsimp only
      by_cases hcode : (o (s.trace ++ calls).length).code = 0
      · rw [if_pos hcode]
        refine ⟨calls ++ [Cmd.serialDrain zone iname], by simp [Res.stOf], ?_,
          by simp [Res.stOf]⟩
        intro c hc
        rcases List.mem_append.mp hc with hc | hc
        · rcases hshape c hc with rfl | rfl <;> rfl
        · rcases List.mem_singleton.mp hc with rfl; rfl
      · rw [if_neg hcode]
        refine ⟨calls ++ [Cmd.serialDrain zone iname], by simp [Res.stOf], ?_,
          by simp [Res.stOf]⟩
        intro c hc
        rcases List.mem_append.mp hc with hc | hc
        · rcases hshape c hc with rfl | rfl <;> rfl
        · rcases List.mem_singleton.mp hc with rfl; rfl
    · rw [if_neg htr]
      refine ⟨calls, by simp [Res.stOf], ?_, by simp [Res.stOf]⟩
      intro c hc
      rcases hshape c hc with rfl | rfl <;> rfl

theorem check_for_image_appends (o : Oracle) (s : St) :
    ∃ ext,
      ((check_for_image o s).stOf).trace = s.trace ++ ext
      ∧ (∀ c ∈ ext, isDeleteInstance c = false ∧ isCreateInstance c = false ∧
          isCreateDisk c = false)
      ∧ ((check_for_image o s).stOf).opts.write_tarball_path
          = s.opts.write_tarball_path := by
  unfold check_for_image get_target_image get_target_project
  dsimp only
  by_cases hp : s.opts.image_project = ""
  · rw [if_pos hp]
    exact ⟨[], by simp [Res.stOf], by simp, by simp [Res.stOf]⟩
  · rw [if_neg hp]
    dsimp only
    by_cases hcode : (o s.trace.length).code = 0
    · rw [if_pos hcode]
      refine ⟨[Cmd.describeImage (describeImageUrl s.opts.image_project
        (target_image_name s.opts))], by simp [Res.stOf], ?_, by simp [Res.stOf]⟩
      rintro c hc
      rcases List.mem_singleton.mp hc with rfl
      exact ⟨rfl, rfl, rfl⟩
    · rw [if_neg hcode]
      refine ⟨[Cmd.describeImage (describeImageUrl s.opts.image_project
        (target_image_name s.opts))], by simp [Res.stOf], ?_, by simp [Res.stOf]⟩
      rintro c hc
      rcases List.mem_singleton.mp hc with rfl
      exact ⟨rfl, rfl, rfl⟩

theorem get_source_image_appends (o : Oracle) (s : St) :
    ∃ ext,
      ((get_source_image o s).stOf).trace = s.trace ++ ext
      ∧ (∀ c ∈ ext, c = Cmd.imagesList)
      ∧ ((get_source_image o s).stOf).opts.write_tarball_path
          = s.opts.write_tarball_path := by
  unfold get_source_image run_or_die
  dsimp only
  by_cases hsi : s.opts.source_image ≠ ""
  · rw [if_pos hsi]
    exact ⟨[], by simp [Res.stOf], by simp, by simp [Res.stOf]⟩
  · rw [if_neg hsi]
    by_cases hcode : (o s.trace.length).code = 0
    · rw [if_pos hcode]
      dsimp only
      cases hre : reSearchFamilySpace s.opts.source_image_family
          (o s.trace.length).stdout with
      | none =>
        refine ⟨[Cmd.imagesList], by simp [Res.stOf], ?_, by simp [Res.stOf]⟩
        rintro c hc
        exact List.mem_singleton.mp hc
      | some g0 =>
        refine ⟨[Cmd.imagesList], by simp [Res.stOf], ?_, by simp [Res.stOf]⟩
        rintro c hc
        exact List.mem_singleton.mp hc
    · rw [if_neg hcode]
      refine ⟨[Cmd.imagesList], by simp [Res.stOf], ?_, by simp [Res.stOf]⟩
      rintro c hc
      exact List.mem_singleton.mp hc

theorem create_prototype_instance_appends (o : Oracle) (s : St) :
    ∃ ext,
      ((create_prototype_instance o s).stOf).trace = s.trace ++ ext
      ∧ (∀ c ∈ ext, isDeleteInstance c = false ∧ isCreateDisk c = false)
      ∧ ((create_prototype_instance o s).stOf).opts.write_tarball_path
          = s.opts.write_tarball_path := by
  unfold create_prototype_instance get_target_project
  by_cases hp : s.opts.image_project = ""
  · rw [if_pos hp]
    exact ⟨[], by simp [Res.stOf], by simp, by simp [Res.stOf]⟩
  · rw [if_neg hp]
    dsimp only
    obtain ⟨e1, t1, p1, w1⟩ := get_source_image_appends o s
    cases hg : get_source_image o s with
    | err er s2 =>
      rw [hg] at t1 w1
      dsimp [Res.stOf] at t1 w1 ⊢
      exact ⟨e1, t1, fun c hc => by rcases p1 c hc with rfl; exact ⟨rfl, rfl⟩, w1⟩
    | out s2 =>
      rw [hg] at t1 w1
      dsimp [Res.stOf] at t1 w1 ⊢
      exact ⟨e1, t1, fun c hc => by rcases p1 c hc with rfl; exact ⟨rfl, rfl⟩, w1⟩
    | ok image s2 =>
      rw [hg] at t1 w1
      dsimp [Res.stOf] at t1 w1 ⊢
      unfold run_or_die
      dsimp only
      by_cases hcode : (o s2.trace.length).code = 0
      · rw [if_pos hcode]
        refine ⟨e1 ++ [Cmd.createInstance s2.opts.tmp_instance_name
          s.opts.image_project image s2.opts.source_image_project s2.opts.zone],
          by simp [Res.stOf, t1], ?_, by simp [Res.stOf, w1]⟩
        intro c hc
        rcases List.mem_append.mp hc with hc | hc
        · rcases p1 c hc with rfl; exact ⟨rfl, rfl⟩
        · rcases List.mem_singleton.mp hc with rfl; exact ⟨rfl, rfl⟩
      · rw [if_neg hcode]
        refine ⟨e1 ++ [Cmd.createInstance s2.opts.tmp_instance_name
          s.opts.image_project image s2.opts.source_image_project s2.opts.zone],
          by simp [Res.stOf, t1], ?_, by simp [Res.stOf, w1]⟩
        intro c hc
        rcases List.mem_append.mp hc with hc | hc
        · rcases p1 c hc with rfl; exact ⟨rfl, rfl⟩
        · rcases List.mem_singleton.mp hc with rfl; exact ⟨rfl, rfl⟩

theorem make_image_tarball_appends (o : Oracle) (s : St) :
    ∃ ext,
      ((make_image_tarball o s).stOf).trace = s.trace ++ ext
      ∧ (∀ c ∈ ext, isDeleteInstance c = false) := by
  unfold make_image_tarball get_target_project do_make_image_tarball run run_or_die
  dsimp only
  by_cases hp : s.opts.image_project = ""
  · rw [if_pos hp]
    exact ⟨[], by simp [Res.stOf], by simp⟩
  · rw [if_neg hp]
    dsimp only
    by_cases h1 : (o s.trace.length).code = 0
    · rw [if_pos h1]
      dsimp only
      by_cases h2 : (o (s.trace ++
          [Cmd.createDisk (s.opts.image ++ "-export") s.opts.image_project
            s.opts.zone]).length).code = 0
      · rw [if_pos h2]
        dsimp only
        by_cases h3 : (o (s.trace ++
            [Cmd.createDisk (s.opts.image ++ "-export") s.opts.image_project s.opts.zone] ++
            [Cmd.attachDisk s.opts.tmp_instance_name (s.opts.image ++ "-export")
              s.opts.image_project s.opts.zone]).length).code = 0
        · rw [if_pos h3]
          dsimp only
          refine ⟨[Cmd.createDisk (s.opts.image ++ "-export") s.opts.image_project s.opts.zone,
            Cmd.attachDisk s.opts.tmp_instance_name (s.opts.image ++ "-export")
              s.opts.image_project s.opts.zone,
            Cmd.sshBundle (pyBasename s.opts.write_tarball_path) s.opts.write_tarball_path
              s.opts.image_project s.opts.zone s.opts.tmp_instance_name,
            Cmd.detachDisk s.opts.tmp_instance_name (s.opts.image ++ "-export")
              s.opts.image_project s.opts.zone,
            Cmd.deleteDiskQ (s.opts.image ++ "-export") s.opts.image_project s.opts.zone],
            by simp [Res.stOf], ?_⟩
          rintro c hc
          simp only [List.mem_cons, List.mem_singleton] at hc
          rcases hc with rfl | rfl | rfl | rfl | (rfl | h') <;> first | rfl | cases h'
        · rw [if_neg h3]
          dsimp only
          refine ⟨[Cmd.createDisk (s.opts.image ++ "-export") s.opts.image_project s.opts.zone,
            Cmd.attachDisk s.opts.tmp_instance_name (s.opts.image ++ "-export")
              s.opts.image_project s.opts.zone,
            Cmd.sshBundle (pyBasename s.opts.write_tarball_path) s.opts.write_tarball_path
              s.opts.image_project s.opts.zone s.opts.tmp_instance_name,
            Cmd.detachDisk s.opts.tmp_instance_name (s.opts.image ++ "-export")
              s.opts.image_project s.opts.zone,
            Cmd.deleteDiskQ (s.opts.image ++ "-export") s.opts.image_project s.opts.zone],
            by simp [Res.stOf], ?_⟩
          rintro c hc
          simp only [List.mem_cons, List.mem_singleton] at hc
          rcases hc with rfl | rfl | rfl | rfl | (rfl | h') <;> first | rfl | cases h'
      · rw [if_neg h2]
        refine ⟨[Cmd.createDisk (s.opts.image ++ "-export") s.opts.image_project s.opts.zone,
          Cmd.attachDisk s.opts.tmp_instance_name (s.opts.image ++ "-export")
            s.opts.image_project s.opts.zone], by simp [Res.stOf], ?_⟩
        rintro c hc
        simp only [List.mem_cons, List.mem_singleton] at hc
        rcases hc with rfl | (rfl | h') <;> first | rfl | cases h'
    · rw [if_neg h1]
      refine ⟨[Cmd.createDisk (s.opts.image ++ "-export") s.opts.image_project s.opts.zone],
        by simp [Res.stOf], ?_⟩
      rintro c hc
      rcases List.mem_singleton.mp hc with rfl
      rfl

theorem make_image_resource_ok_shape (o : Oracle) (s s' : St)
    (h : make_image_resource o s = .ok () s') :
    ∃ c1 c2 c3, s'.trace = s.trace ++ [c1, c2, c3] ∧ isDeleteInstance c1 = true ∧
      isDeleteInstance c2 = false ∧ isDeleteInstance c3 = false := by
  unfold make_image_resource extract_image_from_instance get_target_project
    get_target_image run_or_die at h
  dsimp only at h
  by_cases hp : s.opts.image_project = ""
  · rw [if_pos hp] at h
    simp at h
  · rw [if_neg hp] at h
    dsimp only at h
    by_cases h1 : (o s.trace.length).code = 0
    · rw [if_pos h1] at h
      dsimp only at h
      by_cases h2 : (o (s.trace ++ [Cmd.deleteInstanceKeepBoot s.opts.tmp_instance_name
          s.opts.image_project s.opts.zone]).length).code = 0
      · rw [if_pos h2] at h
        dsimp only at h
        rw [if_neg hp] at h
        dsimp only at h
        by_cases h3 : (o (s.trace ++ [Cmd.deleteInstanceKeepBoot s.opts.tmp_instance_name
            s.opts.image_project s.opts.zone] ++
            [Cmd.createImageCmd (target_image_name s.opts) s.opts.image_project
              s.opts.tmp_instance_name s.opts.zone]).length).code = 0
        · rw [if_pos h3] at h
          simp only [Res.ok.injEq, true_and] at h
          subst h
          refine ⟨Cmd.deleteInstanceKeepBoot s.opts.tmp_instance_name s.opts.image_project
              s.opts.zone,
            Cmd.createImageCmd (target_image_name s.opts) s.opts.image_project
              s.opts.tmp_instance_name s.opts.zone,
            Cmd.deleteDisk s.opts.tmp_instance_name s.opts.image_project s.opts.zone,
            by simp, rfl, rfl, rfl⟩
        · rw [if_neg h3] at h
          simp at h
      · rw [if_neg h2] at h
        simp at h
    · rw [if_neg h1] at h
      simp at h

theorem make_image_resource_appends (o : Oracle) (s : St) :
    ∃ ext, ((make_image_resource o s).stOf).trace = s.trace ++ ext := by
  unfold make_image_resource extract_image_from_instance get_target_project
    get_target_image run_or_die
  dsimp only
  by_cases hp : s.opts.image_project = ""
  · rw [if_pos hp]
    exact ⟨[], by simp [Res.stOf]⟩
  · rw [if_neg hp]
    dsimp only
    by_cases h1 : (o s.trace.length).code = 0
    · rw [if_pos h1]
      dsimp only
      by_cases h2 : (o (s.trace ++ [Cmd.deleteInstanceKeepBoot s.opts.tmp_instance_name
          s.opts.image_project s.opts.zone]).length).code = 0
      · rw [if_pos h2]
        dsimp only
        rw [if_neg hp]
        dsimp only
        by_cases h3 : (o (s.trace ++ [Cmd.deleteInstanceKeepBoot s.opts.tmp_instance_name
            s.opts.image_project s.opts.zone] ++
            [Cmd.createImageCmd (target_image_name s.opts) s.opts.image_project
              s.opts.tmp_instance_name s.opts.zone]).length).code = 0
        · rw [if_pos h3]
          exact ⟨[Cmd.deleteInstanceKeepBoot s.opts.tmp_instance_name s.opts.image_project
              s.opts.zone,
            Cmd.createImageCmd (target_image_name s.opts) s.opts.image_project
              s.opts.tmp_instance_name s.opts.zone,
            Cmd.deleteDisk s.opts.tmp_instance_name s.opts.image_project s.opts.zone],
            by simp [Res.stOf]⟩
        · rw [if_neg h3]
          exact ⟨[Cmd.deleteInstanceKeepBoot s.opts.tmp_instance_name s.opts.image_project
              s.opts.zone,
            Cmd.createImageCmd (target_image_name s.opts) s.opts.image_project
              s.opts.tmp_instance_name s.opts.zone,
            Cmd.deleteDisk s.opts.tmp_instance_name s.opts.image_project s.opts.zone],
            by simp [Res.stOf]⟩
      · rw [if_neg h2]
        exact ⟨[Cmd.deleteInstanceKeepBoot s.opts.tmp_instance_name s.opts.image_project
            s.opts.zone,
          Cmd.createImageCmd (target_image_name s.opts) s.opts.image_project
            s.opts.tmp_instance_name s.opts.zone],
          by simp [Res.stOf]⟩
    · rw [if_neg h1]
      exact ⟨[Cmd.deleteInstanceKeepBoot s.opts.tmp_instance_name s.opts.image_project
          s.opts.zone], by simp [Res.stOf]⟩

theorem check_for_image_nonzero_ok (o : Oracle) (s : St)
    (hp : s.opts.image_project ≠ "") (hc : (o s.trace.length).code ≠ 0) :
    check_for_image o s =
      .ok () ⟨{ s.opts with image := target_image_name s.opts },
        s.trace ++ [Cmd.describeImage (describeImageUrl s.opts.image_project
          (target_image_name s.opts))]⟩ := by
  simp [check_for_image, get_target_image, get_target_project, hp, hc]

theorem create_prototype_instance_explicit (o : Oracle) (s : St)
    (hp : s.opts.image_project ≠ "") (hsi : s.opts.source_image ≠ "") :
    (create_prototype_instance o s).stOf =
      ⟨s.opts, s.trace ++ [Cmd.createInstance s.opts.tmp_instance_name
        s.opts.image_project s.opts.source_image s.opts.source_image_project
        s.opts.zone]⟩ := by
  unfold create_prototype_instance get_target_project get_source_image run_or_die
  dsimp only
  rw [if_neg hp]
  dsimp only
  rw [if_pos hsi]
  dsimp only
  by_cases hcode : (o s.trace.length).code = 0
  · rw [if_pos hcode]
    dsimp [Res.stOf]
  · rw [if_neg hcode]
    dsimp [Res.stOf]

theorem traceFailure_last_fetch_char (o : Oracle)
    (project zone name pattern : String) (fuel offset k : Nat)
    (off : Nat) (calls : List Cmd)
    (h : monitorLoopGo o true project zone name pattern fuel offset k =
      .exited .traceFailure off calls) :
    ∃ j, calls[j]? = some (Cmd.getSerialPort project zone name) ∧
      j + 1 = calls.length ∧ (o (k + j)).code ≠ 0 ∧
      ¬ 0 < pyFind (o (k + j)).stderr crashSignature ∧ off ≠ 0 := by
  induction fuel generalizing offset k off calls with
  | zero => simp [monitorLoopGo] at h
  | succ fuel ih =>
    rw [monitorLoopGo] at h
    simp only [if_true] at h
    by_cases hfail : (o k).code ≠ 0 ∧
        (if pyLen (o k).stdout > offset then pyLen (o k).stdout else offset) ≠ 0
    · rw [if_pos hfail] at h
      by_cases hsig : 0 < pyFind (o k).stderr crashSignature
      · rw [if_pos hsig] at h
        cases hx : monitorLoopGo o true project zone name pattern fuel
            (if pyLen (o k).stdout > offset then pyLen (o k).stdout else offset) (k + 1) with
        | fuelOut calls' => rw [hx] at h; simp [LoopOut.consCall] at h
        | exited e' off' calls' =>
          rw [hx] at h
          simp only [LoopOut.consCall, LoopOut.exited.injEq] at h
          obtain ⟨he, hoff, hc⟩ := h
          subst hoff hc
          obtain ⟨j, hj, hlen, hcode, hnsig, hoff'⟩ := ih _ _ _ _ (he ▸ hx)
          refine ⟨j + 1, by simpa using hj, by simp [← hlen], ?_, ?_, hoff'⟩
          · have harith : k + (j + 1) = k + 1 + j := by omega
            rw [harith]; exact hcode
          · have harith : k + (j + 1) = k + 1 + j := by omega
            rw [harith]; exact hnsig
      · rw [if_neg hsig] at h
        simp only [LoopOut.exited.injEq] at h
        obtain ⟨-, hoff, hc⟩ := h
        subst hoff hc
        exact ⟨0, by simp, by simp, by simpa using hfail.1, by simpa using hsig,
          hfail.2⟩
    · rw [if_neg hfail] at h
      by_cases hfound : 0 ≤ pyFind (o (k + 1)).stdout pattern
      · rw [if_pos hfound] at h
        simp at h
      · rw [if_neg hfound] at h
        cases hx : monitorLoopGo o true project zone name pattern fuel
            (if pyLen (o k).stdout > offset then pyLen (o k).stdout else offset) (k + 2) with
        | fuelOut calls' => rw [hx] at h; simp [LoopOut.consCall] at h
        | exited e' off' calls' =>
          rw [hx] at h
          simp only [LoopOut.consCall, LoopOut.exited.injEq] at h
          obtain ⟨he, hoff, hc⟩ := h
          subst hoff hc
          obtain ⟨j, hj, hlen, hcode, hnsig, hoff'⟩ := ih _ _ _ _ (he ▸ hx)
          refine ⟨j + 2, by simpa using hj, by simp [← hlen], ?_, ?_, hoff'⟩
          · have harith : k + (j + 2) = k + 2 + j := by omega
            rw [harith]; exact hcode
          · have harith : k + (j + 2) = k + 2 + j := by omega
            rw [harith]; exact hnsig

/- ### The claims -/

/-- Claim C1: the Completion Watcher's wait loop exits DONE
(`MonitorExit.sentinelFound`, the break guarded by the sentinel check) if and
only if one of the describe polls it issued returned output containing the
sentinel pattern: for every sequence of poll responses (`Oracle`), with trace
mode enabled or not, the DONE exit never happens on a run whose polled
describe outputs all lack the pattern.  The trace-mode fetch-failure break is
the distinct FAILED exit (`MonitorExit.traceFailure`), not DONE. -/
theorem watcher_done_iff_sentinel (o : Oracle) (tr : Bool)
    (project zone name pattern : String) (fuel offset k : Nat)
    (e : MonitorExit) (off : Nat) (calls : List Cmd)
    (h : monitorLoopGo o tr project zone name pattern fuel offset k = .exited e off calls) :
    e = .sentinelFound ↔
      ∃ j, calls[j]? = some (Cmd.describeInstance name project zone) ∧
        0 ≤ pyFind (o (k + j)).stdout pattern := by
  induction fuel generalizing offset k e off calls with
  | zero => simp [monitorLoopGo] at h
  | succ fuel ih =>
    cases tr with
    | false =>
      rw [monitorLoopGo] at h
      simp only [Bool.false_eq_true, if_false] at h
      by_cases hfound : 0 ≤ pyFind (o k).stdout pattern
      · rw [if_pos hfound] at h
        simp only [LoopOut.exited.injEq] at h
        obtain ⟨he, -, hc⟩ := h
        subst he hc
        constructor
        · intro _; exact ⟨0, by simp, by simpa using hfound⟩
        · intro _; rfl
      · rw [if_neg hfound] at h
        cases hx : monitorLoopGo o false project zone name pattern fuel offset (k + 1) with
        | fuelOut calls' => rw [hx] at h; simp [LoopOut.consCall] at h
        | exited e' off' calls' =>
          rw [hx] at h
          simp only [LoopOut.consCall, LoopOut.exited.injEq] at h
          obtain ⟨he, -, hc⟩ := h
          subst he hc
          rw [ih _ _ _ _ _ hx]
          constructor
          · rintro ⟨j, hj, hf⟩
            refine ⟨j + 1, by simpa using hj, ?_⟩
            have harith : k + (j + 1) = k + 1 + j := by omega
            rw [harith]; exact hf
          · rintro ⟨j, hj, hf⟩
            rcases j with _ | j
            · simp only [List.getElem?_cons_zero, Option.some.injEq] at hj
              exact absurd (by simpa using hf) hfound
            · refine ⟨j, by simpa using hj, ?_⟩
              have harith : k + 1 + j = k + (j + 1) := by omega
              rw [harith]; exact hf
    | true =>
      rw [monitorLoopGo] at h
      simp only [if_true] at h
      by_cases hfail : (o k).code ≠ 0 ∧
          (if pyLen (o k).stdout > offset then pyLen (o k).stdout else offset) ≠ 0
      · rw [if_pos hfail] at h
        by_cases hsig : 0 < pyFind (o k).stderr crashSignature
        · rw [if_pos hsig] at h
          cases hx : monitorLoopGo o true project zone name pattern fuel
              (if pyLen (o k).stdout > offset then pyLen (o k).stdout else offset) (k + 1) with
          | fuelOut calls' => rw [hx] at h; simp [LoopOut.consCall] at h
          | exited e' off' calls' =>
            rw [hx] at h
            simp only [LoopOut.consCall, LoopOut.exited.injEq] at h
            obtain ⟨he, -, hc⟩ := h
            subst he hc
            rw [ih _ _ _ _ _ hx]
            constructor
            · rintro ⟨j, hj, hf⟩
              refine ⟨j + 1, by simpa using hj, ?_⟩
              have harith : k + (j + 1) = k + 1 + j := by omega
              rw [harith]; exact hf
            · rintro ⟨j, hj, hf⟩
              rcases j with _ | j
              · simp at hj
              · refine ⟨j, by simpa using hj, ?_⟩
                have harith : k + 1 + j = k + (j + 1) := by omega
                rw [harith]; exact hf
        · rw [if_neg hsig] at h
          simp only [LoopOut.exited.injEq] at h
          obtain ⟨he, -, hc⟩ := h
          subst he hc
          constructor
          · intro hcontra; exact absurd hcontra (by simp)
          · rintro ⟨j, hj, -⟩
            rcases j with _ | j
            · simp at hj
            · simp at hj
      · rw [if_neg hfail] at h
        by_cases hfound : 0 ≤ pyFind (o (k + 1)).stdout pattern
        · rw [if_pos hfound] at h
          simp only [LoopOut.exited.injEq] at h
          obtain ⟨he, -, hc⟩ := h
          subst he hc
          constructor
          · intro _; exact ⟨1, by simp, hfound⟩
          · intro _; rfl
        · rw [if_neg hfound] at h
          cases hx : monitorLoopGo o true project zone name pattern fuel
              (if pyLen (o k).stdout > offset then pyLen (o k).stdout else offset) (k + 2) with
          | fuelOut calls' => rw [hx] at h; simp [LoopOut.consCall] at h
          | exited e' off' calls' =>
            rw [hx] at h
            simp only [LoopOut.consCall, LoopOut.exited.injEq] at h
            obtain ⟨he, -, hc⟩ := h
            subst he hc
            rw [ih _ _ _ _ _ hx]
            constructor
            · rintro ⟨j, hj, hf⟩
              refine ⟨j + 2, by simpa using hj, ?_⟩
              have harith : k + (j + 2) = k + 2 + j := by omega
              rw [harith]; exact hf
            · rintro ⟨j, hj, hf⟩
              rcases j with _ | (_ | j)
              · simp at hj
              · simp only [List.getElem?_cons_succ, List.getElem?_cons_zero,
                  Option.some.injEq] at hj
                exact absurd (by simpa using hf) hfound
              · refine ⟨j, by simpa using hj, ?_⟩
                have harith : k + 2 + j = k + (j + 2) := by omega
                rw [harith]; exact hf

theorem watcher_done_iff_sentinel_witness :
    MonitorExit.sentinelFound = MonitorExit.sentinelFound ↔
      ∃ j, ([Cmd.describeInstance "n" "p" "z", Cmd.describeInstance "n" "p" "z"] :
          List Cmd)[j]? = some (Cmd.describeInstance "n" "p" "z") ∧
        0 ≤ pyFind (w1Oracle (0 + j)).stdout " - key: mkey" :=
  watcher_done_iff_sentinel w1Oracle false "p" "z" "n" " - key: mkey" 2 0 0
    .sentinelFound 0
    [Cmd.describeInstance "n" "p" "z", Cmd.describeInstance "n" "p" "z"] (by decide)

/-- Claim C2 counterexample: a fully successful tarball-mode run of
`create_image` (instance created, sentinel observed, bundle copied) ends with
no instance-delete call anywhere in its trace even though the instance-create
call was issued — the ephemeral instance is not deleted on this exit path,
refuting deletion on every exit path. -/
theorem tarball_run_never_deletes_instance_cx :
    create_image c2Oracle 1 ⟨c2Opts, []⟩ =
      .ok () ⟨c2Opts,
        [Cmd.describeImage (describeImageUrl "my-project" "my-image"),
         Cmd.createInstance "tmp-inst" "my-project" "src-image" "ubuntu-os-cloud" "us-central1-c",
         Cmd.describeInstance "tmp-inst" "my-project" "us-central1-c",
         Cmd.createDisk "my-image-export" "my-project" "us-central1-c",
         Cmd.attachDisk "tmp-inst" "my-image-export" "my-project" "us-central1-c",
         Cmd.sshBundle "out.tar.gz" "gs://bucket/out.tar.gz" "my-project" "us-central1-c" "tmp-inst",
         Cmd.detachDisk "tmp-inst" "my-image-export" "my-project" "us-central1-c",
         Cmd.deleteDiskQ "my-image-export" "my-project" "us-central1-c"]⟩
    ∧ ([Cmd.describeImage (describeImageUrl "my-project" "my-image"),
         Cmd.createInstance "tmp-inst" "my-project" "src-image" "ubuntu-os-cloud" "us-central1-c",
         Cmd.describeInstance "tmp-inst" "my-project" "us-central1-c",
         Cmd.createDisk "my-image-export" "my-project" "us-central1-c",
         Cmd.attachDisk "tmp-inst" "my-image-export" "my-project" "us-central1-c",
         Cmd.sshBundle "out.tar.gz" "gs://bucket/out.tar.gz" "my-project" "us-central1-c" "tmp-inst",
         Cmd.detachDisk "tmp-inst" "my-image-export" "my-project" "us-central1-c",
         Cmd.deleteDiskQ "my-image-export" "my-project" "us-central1-c"] : List Cmd).countP
        isDeleteInstance = 0
    ∧ ([Cmd.describeImage (describeImageUrl "my-project" "my-image"),
         Cmd.createInstance "tmp-inst" "my-project" "src-image" "ubuntu-os-cloud" "us-central1-c",
         Cmd.describeInstance "tmp-inst" "my-project" "us-central1-c",
         Cmd.createDisk "my-image-export" "my-project" "us-central1-c",
         Cmd.attachDisk "tmp-inst" "my-image-export" "my-project" "us-central1-c",
         Cmd.sshBundle "out.tar.gz" "gs://bucket/out.tar.gz" "my-project" "us-central1-c" "tmp-inst",
         Cmd.detachDisk "tmp-inst" "my-image-export" "my-project" "us-central1-c",
         Cmd.deleteDiskQ "my-image-export" "my-project" "us-central1-c"] : List Cmd).countP
        isCreateInstance = 1 := by
  refine ⟨by decide, by decide, by decide⟩

/-- Claim C2 (amended): the ephemeral instance is deleted only by the image
branch.  A tarball-mode run of `create_image` issues no instance-delete call
on any exit path, and a successful image-mode run issues exactly one (the
keep-boot-disk delete of extraction); failure exits before extraction also
issue none. -/
theorem instance_deletion_only_image_branch (o : Oracle) (opts : Options) (fuel : Nat) :
    (opts.write_tarball_path ≠ "" →
      ((create_image o fuel ⟨opts, []⟩).traceOf).countP isDeleteInstance = 0)
    ∧ (opts.write_tarball_path = "" →
      ∀ s', create_image o fuel ⟨opts, []⟩ = .ok () s' →
        s'.trace.countP isDeleteInstance = 1) := by
  constructor
  · intro htb
    rw [Res.traceOf_eq]
    unfold create_image
    try dsimp only
    by_cases hrel : opts.release_path = ""
    · rw [if_pos hrel]; simp [Res.stOf]
    · rw [if_neg hrel]
      by_cases hval : opts.write_tarball_path ≠ "" ∧
          pyStartswith opts.write_tarball_path "gs://" = false
      · rw [if_pos hval]; simp [Res.stOf]
      · rw [if_neg hval]
        obtain ⟨e1, t1, p1, w1⟩ := check_for_image_appends o ⟨opts, []⟩
        have z1 : e1.countP isDeleteInstance = 0 :=
          countDel_zero _ (fun c hcm => (p1 c hcm).1)
        cases hc : check_for_image o ⟨opts, []⟩ with
        | err er s1 =>
          rw [hc] at t1
          try rw [hc]
          dsimp [Res.stOf] at t1 ⊢
          simp [t1, z1]
        | out s1 =>
          rw [hc] at t1
          try rw [hc]
          dsimp [Res.stOf] at t1 ⊢
          simp [t1, z1]
        | ok u1 s1 =>
          rw [hc] at t1 w1
          try rw [hc]
          dsimp [Res.stOf] at t1 w1
          try dsimp only
          obtain ⟨e2, t2, p2, w2⟩ := create_prototype_instance_appends o s1
          have z2 : e2.countP isDeleteInstance = 0 :=
            countDel_zero _ (fun c hcm => (p2 c hcm).1)
          cases hpr : create_prototype_instance o s1 with
          | err er s2 =>
            rw [hpr] at t2
            try rw [hpr]
            dsimp [Res.stOf] at t2 ⊢
            simp [t2, t1, List.countP_append, z1, z2]
          | out s2 =>
            rw [hpr] at t2
            try rw [hpr]
            dsimp [Res.stOf] at t2 ⊢
            simp [t2, t1, List.countP_append, z1, z2]
          | ok u2 s2 =>
            rw [hpr] at t2 w2
            try rw [hpr]
            dsimp [Res.stOf] at t2 w2
            try dsimp only
            unfold get_target_project
            try dsimp only
            by_cases hp2 : s2.opts.image_project = ""
            · rw [if_pos hp2]
              dsimp [Res.stOf]
              simp [t2, t1, List.countP_append, z1, z2]
            · rw [if_neg hp2]
              try dsimp only
              obtain ⟨e3, t3, p3, w3⟩ := monitor_appends o fuel s2.opts.image_project
                s2.opts.zone s2.opts.tmp_instance_name "spinnaker-sentinal" s2
              have z3 : e3.countP isDeleteInstance = 0 := countDel_zero _ p3
              cases hm : monitor_serial_port_until_metadata_key o fuel
                  s2.opts.image_project s2.opts.zone s2.opts.tmp_instance_name
                  "spinnaker-sentinal" s2 with
              | err er s3 =>
                rw [hm] at t3
                try rw [hm]
                dsimp [Res.stOf] at t3 ⊢
                simp [t3, t2, t1, List.countP_append, z1, z2, z3]
              | out s3 =>
                rw [hm] at t3
                try rw [hm]
                dsimp [Res.stOf] at t3 ⊢
                simp [t3, t2, t1, List.countP_append, z1, z2, z3]
              | ok u3 s3 =>
                rw [hm] at t3 w3
                try rw [hm]
                dsimp [Res.stOf] at t3 w3
                try dsimp only
                have hw3 : s3.opts.write_tarball_path = opts.write_tarball_path := by
                  rw [w3, w2, w1]
                rw [if_pos (by rw [hw3]; exact htb)]
                obtain ⟨e4, t4, p4⟩ := make_image_tarball_appends o s3
                have z4 : e4.countP isDeleteInstance = 0 := countDel_zero _ p4
                rw [t4]
                simp [t3, t2, t1, List.countP_append, z1, z2, z3, z4]
  · intro htb s' h
    unfold create_image at h
    try dsimp only at h
    by_cases hrel : opts.release_path = ""
    · rw [if_pos hrel] at h; simp at h
    · rw [if_neg hrel] at h
      have hval : ¬(opts.write_tarball_path ≠ "" ∧
          pyStartswith opts.write_tarball_path "gs://" = false) := by simp [htb]
      rw [if_neg hval] at h
      obtain ⟨e1, t1, p1, w1⟩ := check_for_image_appends o ⟨opts, []⟩
      have z1 : e1.countP isDeleteInstance = 0 :=
        countDel_zero _ (fun c hcm => (p1 c hcm).1)
      cases hc : check_for_image o ⟨opts, []⟩ with
      | err er s1 => rw [hc] at h; simp at h
      | out s1 => rw [hc] at h; simp at h
      | ok u1 s1 =>
        rw [hc] at t1 w1 h
        dsimp [Res.stOf] at t1 w1
        try dsimp only at h
        obtain ⟨e2, t2, p2, w2⟩ := create_prototype_instance_appends o s1
        have z2 : e2.countP isDeleteInstance = 0 :=
          countDel_zero _ (fun c hcm => (p2 c hcm).1)
        cases hpr : create_prototype_instance o s1 with
        | err er s2 => rw [hpr] at h; simp at h
        | out s2 => rw [hpr] at h; simp at h
        | ok u2 s2 =>
          rw [hpr] at t2 w2 h
          dsimp [Res.stOf] at t2 w2
          try dsimp only at h
          unfold get_target_project at h
          try dsimp only at h
          by_cases hp2 : s2.opts.image_project = ""
          · rw [if_pos hp2] at h; simp at h
          · rw [if_neg hp2] at h
            try dsimp only at h
            obtain ⟨e3, t3, p3, w3⟩ := monitor_appends o fuel s2.opts.image_project
              s2.opts.zone s2.opts.tmp_instance_name "spinnaker-sentinal" s2
            have z3 : e3.countP isDeleteInstance = 0 := countDel_zero _ p3
            cases hm : monitor_serial_port_until_metadata_key o fuel
                s2.opts.image_project s2.opts.zone s2.opts.tmp_instance_name
                "spinnaker-sentinal" s2 with
            | err er s3 => rw [hm] at h; simp at h
            | out s3 => rw [hm] at h; simp at h
            | ok u3 s3 =>
              rw [hm] at t3 w3 h
              dsimp [Res.stOf] at t3 w3
              try dsimp only at h
              have hw3 : s3.opts.write_tarball_path = opts.write_tarball_path := by
                rw [w3, w2, w1]
              have hcond : ¬(s3.opts.write_tarball_path ≠ "") := by simp [hw3, htb]
              rw [if_neg hcond] at h
              obtain ⟨c1, c2, c3, tshape, d1, d2, d3⟩ :=
                make_image_resource_ok_shape o s3 s' h
              rw [tshape, t3, t2, t1]
              simp [List.countP_append, List.countP_cons, z1, z2, z3, d1, d2, d3]

theorem instance_deletion_only_image_branch_witness :
    ((create_image c2Oracle 1 ⟨c2Opts, []⟩).traceOf).countP isDeleteInstance = 0
    ∧ (⟨sOpts,
        [Cmd.describeImage (describeImageUrl "my-project" "my-image"),
         Cmd.createInstance "tmp-inst" "my-project" "src-image" "ubuntu-os-cloud" "us-central1-c",
         Cmd.describeInstance "tmp-inst" "my-project" "us-central1-c",
         Cmd.deleteInstanceKeepBoot "tmp-inst" "my-project" "us-central1-c",
         Cmd.createImageCmd "my-image" "my-project" "tmp-inst" "us-central1-c",
         Cmd.deleteDisk "tmp-inst" "my-project" "us-central1-c"]⟩ : St).trace.countP
        isDeleteInstance = 1 :=
  ⟨(instance_deletion_only_image_branch c2Oracle c2Opts 1).1 (by decide),
   (instance_deletion_only_image_branch c2Oracle sOpts 1).2 rfl _ (by decide)⟩

/-- Claim C3: in the image branch, every image-create call in the trace is
preceded by an instance-delete call (keep-disks boot) whose response status
was zero (`run_or_die` returns only on success, so the delete completed before
the image create was issued), and every boot-disk delete call is preceded by
an image-create call whose response status was zero. -/
theorem image_branch_ordering (o : Oracle) (opts : Options)
    (hproj : opts.image_project ≠ "") :
    (∀ j c, ((make_image_resource o ⟨opts, []⟩).traceOf)[j]? = some c →
        isCreateImage c = true →
        ∃ i c', i < j ∧ ((make_image_resource o ⟨opts, []⟩).traceOf)[i]? = some c' ∧
          isDeleteInstance c' = true ∧ (o i).code = 0)
    ∧ (∀ j c, ((make_image_resource o ⟨opts, []⟩).traceOf)[j]? = some c →
        isDeleteDiskCmd c = true →
        ∃ i c', i < j ∧ ((make_image_resource o ⟨opts, []⟩).traceOf)[i]? = some c' ∧
          isCreateImage c' = true ∧ (o i).code = 0) := by
  by_cases h1 : (o 0).code = 0
  · by_cases h2 : (o 1).code = 0
    · by_cases h3 : (o 2).code = 0
      · have key : (make_image_resource o ⟨opts, []⟩).traceOf =
            [Cmd.deleteInstanceKeepBoot opts.tmp_instance_name opts.image_project opts.zone,
             Cmd.createImageCmd (target_image_name opts) opts.image_project
               opts.tmp_instance_name opts.zone,
             Cmd.deleteDisk opts.tmp_instance_name opts.image_project opts.zone] := by
          simp [make_image_resource, extract_image_from_instance, get_target_project,
            get_target_image, run_or_die, Res.traceOf, hproj, h1, h2, h3]
        rw [key]
        constructor
        · intro j c hj hcx
          match j with
          | 0 =>
            simp only [List.getElem?_cons_zero, Option.some.injEq] at hj
            rw [← hj] at hcx
            simp [isCreateImage] at hcx
          | 1 =>
            exact ⟨0, Cmd.deleteInstanceKeepBoot opts.tmp_instance_name
              opts.image_project opts.zone, by omega, by simp, rfl, h1⟩
          | 2 =>
            simp only [List.getElem?_cons_succ, List.getElem?_cons_zero,
              Option.some.injEq] at hj
            rw [← hj] at hcx
            simp [isCreateImage] at hcx
          | j + 3 => simp at hj
        · intro j c hj hcx
          match j with
          | 0 =>
            simp only [List.getElem?_cons_zero, Option.some.injEq] at hj
            rw [← hj] at hcx
            simp [isDeleteDiskCmd] at hcx
          | 1 =>
            simp only [List.getElem?_cons_succ, List.getElem?_cons_zero,
              Option.some.injEq] at hj
            rw [← hj] at hcx
            simp [isDeleteDiskCmd] at hcx
          | 2 =>
            exact ⟨1, Cmd.createImageCmd (target_image_name opts) opts.image_project
              opts.tmp_instance_name opts.zone, by omega, by simp, rfl, h2⟩
          | j + 3 => simp at hj
      · have key : (make_image_resource o ⟨opts, []⟩).traceOf =
            [Cmd.deleteInstanceKeepBoot opts.tmp_instance_name opts.image_project opts.zone,
             Cmd.createImageCmd (target_image_name opts) opts.image_project
               opts.tmp_instance_name opts.zone,
             Cmd.deleteDisk opts.tmp_instance_name opts.image_project opts.zone] := by
          simp [make_image_resource, extract_image_from_instance, get_target_project,
            get_target_image, run_or_die, Res.traceOf, hproj, h1, h2, h3]
        rw [key]
        constructor
        · intro j c hj hcx
          match j with
          | 0 =>
            simp only [List.getElem?_cons_zero, Option.some.injEq] at hj
            rw [← hj] at hcx
            simp [isCreateImage] at hcx
          | 1 =>
            exact ⟨0, Cmd.deleteInstanceKeepBoot opts.tmp_instance_name
              opts.image_project opts.zone, by omega, by simp, rfl, h1⟩
          | 2 =>
            simp only [List.getElem?_cons_succ, List.getElem?_cons_zero,
              Option.some.injEq] at hj
            rw [← hj] at hcx
            simp [isCreateImage] at hcx
          | j + 3 => simp at hj
        · intro j c hj hcx
          match j with
          | 0 =>
            simp only [List.getElem?_cons_zero, Option.some.injEq] at hj
            rw [← hj] at hcx
            simp [isDeleteDiskCmd] at hcx
          | 1 =>
            simp only [List.getElem?_cons_succ, List.getElem?_cons_zero,
              Option.some.injEq] at hj
            rw [← hj] at hcx
            simp [isDeleteDiskCmd] at hcx
          | 2 =>
            exact ⟨1, Cmd.createImageCmd (target_image_name opts) opts.image_project
              opts.tmp_instance_name opts.zone, by omega, by simp, rfl, h2⟩
          | j + 3 => simp at hj
    · have key : (make_image_resource o ⟨opts, []⟩).traceOf =
          [Cmd.deleteInstanceKeepBoot opts.tmp_instance_name opts.image_project opts.zone,
           Cmd.createImageCmd (target_image_name opts) opts.image_project
             opts.tmp_instance_name opts.zone] := by
        simp [make_image_resource, extract_image_from_instance, get_target_project,
          get_target_image, run_or_die, Res.traceOf, hproj, h1, h2]
      rw [key]
      constructor
      · intro j c hj hcx
        match j with
        | 0 =>
          simp only [List.getElem?_cons_zero, Option.some.injEq] at hj
          rw [← hj] at hcx
          simp [isCreateImage] at hcx
        | 1 =>
          exact ⟨0, Cmd.deleteInstanceKeepBoot opts.tmp_instance_name
            opts.image_project opts.zone, by omega, by simp, rfl, h1⟩
        | j + 2 => simp at hj
      · intro j c hj hcx
        match j with
        | 0 =>
          simp only [List.getElem?_cons_zero, Option.some.injEq] at hj
          rw [← hj] at hcx
          simp [isDeleteDiskCmd] at hcx
        | 1 =>
          simp only [List.getElem?_cons_succ, List.getElem?_cons_zero,
            Option.some.injEq] at hj
          rw [← hj] at hcx
          simp [isDeleteDiskCmd] at hcx
        | j + 2 => simp at hj
  · have key : (make_image_resource o ⟨opts, []⟩).traceOf =
        [Cmd.deleteInstanceKeepBoot opts.tmp_instance_name opts.image_project opts.zone] := by
      simp [make_image_resource, extract_image_from_instance, get_target_project,
        get_target_image, run_or_die, Res.traceOf, hproj, h1]
    rw [key]
    constructor
    · intro j c hj hcx
      match j with
      | 0 =>
        simp only [List.getElem?_cons_zero, Option.some.injEq] at hj
        rw [← hj] at hcx
        simp [isCreateImage] at hcx
      | j + 1 => simp at hj
    · intro j c hj hcx
      match j with
      | 0 =>
        simp only [List.getElem?_cons_zero, Option.some.injEq] at hj
        rw [← hj] at hcx
        simp [isDeleteDiskCmd] at hcx
      | j + 1 => simp at hj

theorem image_branch_ordering_witness :
    ∃ i c', i < 1 ∧
      ((make_image_resource okOracle ⟨sOpts, []⟩).traceOf)[i]? = some c' ∧
      isDeleteInstance c' = true ∧ (okOracle i).code = 0 :=
  (image_branch_ordering okOracle sOpts (by decide)).1 1
    (Cmd.createImageCmd "my-image" "my-project" "tmp-inst" "us-central1-c")
    (by decide) (by decide)

/-- Claim C4: when the remote bundling command fails (non-zero status) after
the scratch disk was created and attached, `make_image_tarball` still detaches
and then deletes the scratch disk — each exactly once and in that order, as
the final trace shows — and the surfaced error is the original bundling
failure (`Err.died` of the ssh command); the responses to the two cleanup
calls are unconstrained, so their failure cannot replace the original error. -/
theorem tarball_cleanup_on_bundle_failure (o : Oracle) (opts : Options)
    (hproj : opts.image_project ≠ "")
    (h0 : (o 0).code = 0) (h1 : (o 1).code = 0) (h2 : (o 2).code ≠ 0) :
    make_image_tarball o ⟨opts, []⟩ =
      .err (.died (Cmd.sshBundle (pyBasename opts.write_tarball_path)
            opts.write_tarball_path opts.image_project opts.zone opts.tmp_instance_name))
        ⟨opts,
         [Cmd.createDisk (opts.image ++ "-export") opts.image_project opts.zone,
          Cmd.attachDisk opts.tmp_instance_name (opts.image ++ "-export") opts.image_project opts.zone,
          Cmd.sshBundle (pyBasename opts.write_tarball_path) opts.write_tarball_path
            opts.image_project opts.zone opts.tmp_instance_name,
          Cmd.detachDisk opts.tmp_instance_name (opts.image ++ "-export") opts.image_project opts.zone,
          Cmd.deleteDiskQ (opts.image ++ "-export") opts.image_project opts.zone]⟩ := by
  simp [make_image_tarball, get_target_project, hproj, run_or_die, run,
    do_make_image_tarball, h0, h1, h2]

theorem tarball_cleanup_on_bundle_failure_witness :
    make_image_tarball c4Oracle ⟨c2Opts, []⟩ =
      .err (.died (Cmd.sshBundle (pyBasename c2Opts.write_tarball_path)
            c2Opts.write_tarball_path c2Opts.image_project c2Opts.zone
            c2Opts.tmp_instance_name))
        ⟨c2Opts,
         [Cmd.createDisk (c2Opts.image ++ "-export") c2Opts.image_project c2Opts.zone,
          Cmd.attachDisk c2Opts.tmp_instance_name (c2Opts.image ++ "-export")
            c2Opts.image_project c2Opts.zone,
          Cmd.sshBundle (pyBasename c2Opts.write_tarball_path) c2Opts.write_tarball_path
            c2Opts.image_project c2Opts.zone c2Opts.tmp_instance_name,
          Cmd.detachDisk c2Opts.tmp_instance_name (c2Opts.image ++ "-export")
            c2Opts.image_project c2Opts.zone,
          Cmd.deleteDiskQ (c2Opts.image ++ "-export") c2Opts.image_project c2Opts.zone]⟩ :=
  tarball_cleanup_on_bundle_failure c4Oracle c2Opts (by decide) (by decide)
    (by decide) (by decide)

/-- Claim C5: when the target-image describe succeeds (status zero: the image
already exists), `create_image` aborts with the conflict message built from
the describe output, and its trace is exactly the single describe call — the
existence check ran and no instance-creating or disk-creating call was ever
issued. -/
theorem conflict_aborts_before_provisioning (o : Oracle) (opts : Options) (fuel : Nat)
    (hrel : opts.release_path ≠ "")
    (htb : opts.write_tarball_path = "" ∨ pyStartswith opts.write_tarball_path "gs://" = true)
    (hproj : opts.image_project ≠ "")
    (h0 : (o 0).code = 0) :
    create_image o fuel ⟨opts, []⟩ =
      .err (.sysExit (conflictMessage (target_image_name opts) opts.image_project (o 0).stdout))
        ⟨{ opts with image := target_image_name opts },
         [Cmd.describeImage (describeImageUrl opts.image_project (target_image_name opts))]⟩ := by
  have hv : ¬(opts.write_tarball_path ≠ "" ∧ pyStartswith opts.write_tarball_path "gs://" = false) := by
    rcases htb with h | h <;> simp [h]
  simp [create_image, hrel, hv, check_for_image, get_target_image, get_target_project, hproj, h0]

theorem conflict_aborts_before_provisioning_witness :
    create_image c5Oracle 0 ⟨sOpts, []⟩ =
      .err (.sysExit (conflictMessage (target_image_name sOpts) sOpts.image_project
          (c5Oracle 0).stdout))
        ⟨{ sOpts with image := target_image_name sOpts },
         [Cmd.describeImage (describeImageUrl sOpts.image_project
            (target_image_name sOpts))]⟩ :=
  conflict_aborts_before_provisioning c5Oracle sOpts 0 (by decide) (Or.inl rfl)
    (by decide) (by decide)

/-- Claim C6 counterexample: a trace-mode fetch failure whose stderr is
exactly the crash signature — so the signature occurs at index 0 and Python's
`stderr.find(...) > 0` is false — is not ignored: the loop exits FAILED on
that cycle even though the error text matches the known crash signature. -/
theorem crash_signature_at_start_fails_cx :
    monitorLoopGo c6Oracle true "p" "z" "n" " - key: m" 2 0 0 =
      .exited .traceFailure 1
        [Cmd.getSerialPort "p" "z" "n", Cmd.describeInstance "n" "p" "z",
         Cmd.getSerialPort "p" "z" "n"]
    ∧ pyFind (c6Oracle 2).stderr crashSignature = 0
    ∧ (c6Oracle 2).code ≠ 0 := by
  refine ⟨by decide, by decide, by decide⟩

/-- Claim C6 (amended): in trace mode, a serial-fetch failure after output has
been observed (updated offset non-zero) is ignored and the fetch retried
exactly when the crash signature occurs at a strictly positive index of the
stderr (Python `find(...) > 0`); otherwise the loop exits FAILED on that
cycle, and every FAILED exit is such a non-ignored fetch failure. -/
theorem crash_signature_positive_index_handling (o : Oracle)
    (project zone name pattern : String) (fuel offset k : Nat) :
    (∀ off calls,
      monitorLoopGo o true project zone name pattern fuel offset k =
          .exited .traceFailure off calls →
        ∃ j, calls[j]? = some (Cmd.getSerialPort project zone name) ∧
          j + 1 = calls.length ∧ (o (k + j)).code ≠ 0 ∧
          ¬ 0 < pyFind (o (k + j)).stderr crashSignature ∧ off ≠ 0)
    ∧ ((o k).code ≠ 0 →
        (if pyLen (o k).stdout > offset then pyLen (o k).stdout else offset) ≠ 0 →
        0 < pyFind (o k).stderr crashSignature →
        monitorLoopGo o true project zone name pattern (fuel + 1) offset k =
          LoopOut.consCall (Cmd.getSerialPort project zone name)
            (monitorLoopGo o true project zone name pattern fuel
              (if pyLen (o k).stdout > offset then pyLen (o k).stdout else offset)
              (k + 1)))
    ∧ ((o k).code ≠ 0 →
        (if pyLen (o k).stdout > offset then pyLen (o k).stdout else offset) ≠ 0 →
        ¬ 0 < pyFind (o k).stderr crashSignature →
        monitorLoopGo o true project zone name pattern (fuel + 1) offset k =
          .exited .traceFailure
            (if pyLen (o k).stdout > offset then pyLen (o k).stdout else offset)
            [Cmd.getSerialPort project zone name]) := by
  refine ⟨?_, ?_, ?_⟩
  · intro off calls h
    exact traceFailure_last_fetch_char o project zone name pattern fuel offset k off calls h
  · intro hcode hoff hsig
    rw [monitorLoopGo]
    simp only [if_true]
    rw [if_pos ⟨hcode, hoff⟩, if_pos hsig]
  · intro hcode hoff hsig
    rw [monitorLoopGo]
    simp only [if_true]
    rw [if_pos ⟨hcode, hoff⟩, if_neg hsig]

theorem crash_signature_positive_index_handling_witness :
    (∃ j, ([Cmd.getSerialPort "p" "z" "n", Cmd.describeInstance "n" "p" "z",
        Cmd.getSerialPort "p" "z" "n"] : List Cmd)[j]? =
          some (Cmd.getSerialPort "p" "z" "n") ∧
        j + 1 = ([Cmd.getSerialPort "p" "z" "n", Cmd.describeInstance "n" "p" "z",
          Cmd.getSerialPort "p" "z" "n"] : List Cmd).length ∧
        (c6Oracle (0 + j)).code ≠ 0 ∧
        ¬ 0 < pyFind (c6Oracle (0 + j)).stderr crashSignature ∧ (1 : Nat) ≠ 0)
    ∧ monitorLoopGo c6bOracle true "p" "z" "n" " - key: m" 1 0 0 =
        LoopOut.consCall (Cmd.getSerialPort "p" "z" "n")
          (monitorLoopGo c6bOracle true "p" "z" "n" " - key: m" 0
            (if pyLen (c6bOracle 0).stdout > 0 then pyLen (c6bOracle 0).stdout else 0) 1) :=
  ⟨(crash_signature_positive_index_handling c6Oracle "p" "z" "n" " - key: m" 2 0 0).1
      1 [Cmd.getSerialPort "p" "z" "n", Cmd.describeInstance "n" "p" "z",
         Cmd.getSerialPort "p" "z" "n"] (by decide),
   (crash_signature_positive_index_handling c6bOracle "p" "z" "n" " - key: m" 0 0 0).2.1
      (by decide) (by decide) (by decide)⟩

/-- Claim C7 counterexample: with two family images in the listing and the
older one listed first, `get_source_image` selects the first-listed image
while the spec-side most-recent selector picks the newer one — the code
implements first-match-in-listing-order, not most-recent. -/
theorem family_first_match_not_most_recent_cx :
    spec_most_recent_family_image "ubuntu-1404" c7Images = some ⟨"ubuntu-1404-v2", 2⟩
    ∧ get_source_image c7Oracle ⟨c7Opts, []⟩ =
        .ok "ubuntu-1404-v1" ⟨{ c7Opts with source_image := "ubuntu-1404-v1" }, [Cmd.imagesList]⟩ := by
  refine ⟨by decide, by decide⟩

/-- Claim C7 (amended): an explicit source image is returned verbatim, with no
listing query and no state change; otherwise the full image listing is
fetched and the first (leftmost) match of the family pattern in the listing
text is stripped, cached on the options and returned, and when nothing
matches the run aborts with the no-images message (`sys.exit(-1)`). -/
theorem source_image_resolution (o : Oracle) (s : St) :
    (s.opts.source_image ≠ "" → get_source_image o s = .ok s.opts.source_image s)
    ∧ (s.opts.source_image = "" → (o s.trace.length).code = 0 →
        (reSearchFamilySpace s.opts.source_image_family (o s.trace.length).stdout = none →
          get_source_image o s =
            .err (.sysExit (noImagesMessage s.opts.source_image_family (o s.trace.length).stdout))
              { s with trace := s.trace ++ [Cmd.imagesList] })
        ∧ (∀ g0, reSearchFamilySpace s.opts.source_image_family (o s.trace.length).stdout = some g0 →
            get_source_image o s =
              .ok (pyStrip g0)
                ⟨{ s.opts with source_image := pyStrip g0 }, s.trace ++ [Cmd.imagesList]⟩)) := by
  constructor
  · intro h
    simp [get_source_image, h]
  · intro h hc
    constructor
    · intro hn
      simp [get_source_image, h, run_or_die, hc, hn]
    · intro g0 hg
      simp [get_source_image, h, run_or_die, hc, hg]

theorem source_image_resolution_witness :
    get_source_image okOracle ⟨sOpts, []⟩ = .ok "src-image" ⟨sOpts, []⟩
    ∧ get_source_image c7Oracle ⟨c7Opts, []⟩ =
        .ok (pyStrip "ubuntu-1404-v1 ")
          ⟨{ c7Opts with source_image := pyStrip "ubuntu-1404-v1 " }, [Cmd.imagesList]⟩ :=
  ⟨(source_image_resolution okOracle ⟨sOpts, []⟩).1 (by decide),
   ((source_image_resolution c7Oracle ⟨c7Opts, []⟩).2 (by decide) (by decide)).2
      "ubuntu-1404-v1 " (by decide)⟩

/-- Claim C8: in tarball mode, a destination path that does not start with
`gs://` makes `create_image` fail with the ValueError before any external
call: the resulting trace is empty, so the existence check never ran and no
instance or disk was created. -/
theorem tarball_path_validated_first (o : Oracle) (opts : Options) (fuel : Nat)
    (hrel : opts.release_path ≠ "")
    (htp : opts.write_tarball_path ≠ "")
    (hgs : pyStartswith opts.write_tarball_path "gs://" = false) :
    create_image o fuel ⟨opts, []⟩ = .err (.valueError tarballPathError) ⟨opts, []⟩ := by
  simp [create_image, hrel, htp, hgs]

theorem tarball_path_validated_first_witness :
    create_image okOracle 0 ⟨c8Opts, []⟩ = .err (.valueError tarballPathError) ⟨c8Opts, []⟩ :=
  tarball_path_validated_first okOracle c8Opts 0 (by decide) (by decide) (by decide)

/-- Claim C9 (code bug): after the sentinel is observed in trace mode the
watcher issues one final serial-port fetch, but the source's format string
has no placeholder for the project — the command line carries the literal
word `project` (`--project project`) instead of the watched project, so the
drain does not target the watched instance's project (and since the fetch
goes through `run_or_die`, its failure aborts the run instead of emitting the
remaining output).  The run below watches project `my-proj`; the drain command
it issues never mentions it. -/
theorem final_drain_wrong_project :
    monitor_serial_port_until_metadata_key c9Oracle 2 "my-proj" "z1" "inst" "mkey" ⟨c9Opts, []⟩ =
      .ok () ⟨c9Opts, [Cmd.getSerialPort "my-proj" "z1" "inst",
                       Cmd.describeInstance "inst" "my-proj" "z1",
                       Cmd.serialDrain "z1" "inst"]⟩
    ∧ renderCmd (Cmd.serialDrain "z1" "inst") =
      "gcloud compute --project project instances get-serial-port-output --format text --zone z1 inst"
    ∧ pyFind (renderCmd (Cmd.serialDrain "z1" "inst")) "my-proj" = -1 := by
  refine ⟨by decide, by decide, by decide⟩

/-- Claim C10: `check_for_image` treats every non-zero status of the
image-describe call as 'target image absent': for any such response (the
witness uses status 7 with a transient-error message), the check returns
normally with just the describe call in the trace, and `create_image`
proceeds to provisioning — the second call of the run is the instance-create
command, whatever the describe failure was. -/
theorem nonzero_describe_treated_as_absent (o : Oracle) (opts : Options) (fuel : Nat)
    (hrel : opts.release_path ≠ "")
    (htb : opts.write_tarball_path = "" ∨
      pyStartswith opts.write_tarball_path "gs://" = true)
    (hproj : opts.image_project ≠ "")
    (hsi : opts.source_image ≠ "")
    (h0 : (o 0).code ≠ 0) :
    check_for_image o ⟨opts, []⟩ =
      .ok () ⟨{ opts with image := target_image_name opts },
        [Cmd.describeImage (describeImageUrl opts.image_project (target_image_name opts))]⟩
    ∧ ((create_image o fuel ⟨opts, []⟩).traceOf)[1]? =
      some (Cmd.createInstance opts.tmp_instance_name opts.image_project
        opts.source_image opts.source_image_project opts.zone) := by
  have hcheck := check_for_image_nonzero_ok o ⟨opts, []⟩ hproj h0
  refine ⟨hcheck, ?_⟩
  rw [Res.traceOf_eq]
  unfold create_image
  dsimp only
  rw [if_neg hrel]
  have hval : ¬(opts.write_tarball_path ≠ "" ∧
      pyStartswith opts.write_tarball_path "gs://" = false) := by
    rcases htb with h | h <;> simp [h]
  rw [if_neg hval]
  cases hc : check_for_image o ⟨opts, []⟩ with
  | err er s1 => rw [hc] at hcheck; simp at hcheck
  | out s1 => rw [hc] at hcheck; simp at hcheck
  | ok u1 s1 =>
    rw [hc] at hcheck
    simp only [Res.ok.injEq, true_and] at hcheck
    try dsimp only
    have hs1o : s1.opts = { opts with image := target_image_name opts } := by
      rw [hcheck]
    have hs1t : s1.trace =
        [Cmd.describeImage (describeImageUrl opts.image_project
          (target_image_name opts))] := by
      simp [hcheck]
    have hproto := create_prototype_instance_explicit o s1
      (by rw [hs1o]; simpa using hproj) (by rw [hs1o]; simpa using hsi)
    rw [hs1o, hs1t] at hproto
    dsimp only at hproto
    cases hpx : create_prototype_instance o s1 with
    | err er s2 =>
      rw [hpx] at hproto
      try rw [hpx]
      dsimp [Res.stOf] at hproto ⊢
      rw [hproto]
      simp
    | out s2 =>
      rw [hpx] at hproto
      try rw [hpx]
      dsimp [Res.stOf] at hproto ⊢
      rw [hproto]
      simp
    | ok u2 s2 =>
      rw [hpx] at hproto
      dsimp [Res.stOf] at hproto
      have hs2o : s2.opts = { opts with image := target_image_name opts } := by
        rw [hproto]
      have hs2t : s2.trace =
          [Cmd.describeImage (describeImageUrl opts.image_project (target_image_name opts)),
           Cmd.createInstance opts.tmp_instance_name opts.image_project opts.source_image
             opts.source_image_project opts.zone] := by
        simp [hproto]
      try dsimp only
      unfold get_target_project
      try dsimp only
      rw [if_neg (by rw [hs2o]; simpa using hproj)]
      try dsimp only
      obtain ⟨e3, t3, p3, w3⟩ := monitor_appends o fuel s2.opts.image_project
        s2.opts.zone s2.opts.tmp_instance_name "spinnaker-sentinal" s2
      cases hm : monitor_serial_port_until_metadata_key o fuel s2.opts.image_project
          s2.opts.zone s2.opts.tmp_instance_name "spinnaker-sentinal" s2 with
      | err er s3 =>
        rw [hm] at t3
        try rw [hm]
        dsimp [Res.stOf] at t3 ⊢
        rw [t3, hs2t]
        simp
      | out s3 =>
        rw [hm] at t3
        try rw [hm]
        dsimp [Res.stOf] at t3 ⊢
        rw [t3, hs2t]
        simp
      | ok u3 s3 =>
        rw [hm] at t3
        dsimp [Res.stOf] at t3
        try dsimp only
        by_cases hb : s3.opts.write_tarball_path ≠ ""
        · rw [if_pos hb]
          obtain ⟨e4, t4, p4⟩ := make_image_tarball_appends o s3
          rw [t4, t3, hs2t]
          simp
        · rw [if_neg hb]
          obtain ⟨e4, t4⟩ := make_image_resource_appends o s3
          rw [t4, t3, hs2t]
          simp

theorem nonzero_describe_treated_as_absent_witness :
    check_for_image c10Oracle ⟨sOpts, []⟩ =
      .ok () ⟨{ sOpts with image := target_image_name sOpts },
        [Cmd.describeImage (describeImageUrl sOpts.image_project (target_image_name sOpts))]⟩
    ∧ ((create_image c10Oracle 1 ⟨sOpts, []⟩).traceOf)[1]? =
      some (Cmd.createInstance sOpts.tmp_instance_name sOpts.image_project
        sOpts.source_image sOpts.source_image_project sOpts.zone) :=
  nonzero_describe_treated_as_absent c10Oracle sOpts 1 (by decide) (Or.inl rfl)
    (by decide) (by decide) (by decide)
